import Mathlib

/-
Verification of the itBit REST client (src/itbit.js) against its
natural-language specification.  The JavaScript is shallowly embedded:
JS values are an inductive `Json`, the mutable nonce counter becomes
explicit state passing, the network callback becomes a pure function of
the transport outcome, and the node crypto primitives (sha256 and
hmac-sha512), which are library code outside the repository, are
parameters of the signer.  Base64, UTF-8, JSON stringification and
query-string encoding are implemented concretely.
-/

namespace ItBitSpec

/-- Model of a JavaScript value as it occurs in this client: `undefined`,
`null`, booleans, (integral) numbers, strings, arrays and plain objects
with ordered string keys. -/
inductive Json where
  | null
  | undefined
  | bool (b : Bool)
  | num (n : Int)
  | str (s : String)
  | arr (elems : List Json)
  | obj (fields : List (String × Json))

/-- JavaScript truthiness of a value: `undefined`, `null`, `false`, `0`
and the empty string are falsy; arrays and objects are always truthy. -/
def truthy : Json → Bool
  | .null => false
  | .undefined => false
  | .bool b => b
  | .num n => n != 0
  | .str s => s != ""
  | .arr _ => true
  | .obj _ => true

/-- Embedding of underscore's `_.isObject`: true exactly for values whose
JS `typeof` is `object` (and are not null), which includes arrays. -/
def isObject : Json → Bool
  | .arr _ => true
  | .obj _ => true
  | _ => false

/-- Embedding of underscore's `_.isEmpty`: objects without keys, empty
arrays and empty strings are empty; null and undefined are empty;
numbers and booleans have no length and count as empty. -/
def isEmpty : Json → Bool
  | .null => true
  | .undefined => true
  | .bool _ => true
  | .num _ => true
  | .str s => s == ""
  | .arr xs => xs.isEmpty
  | .obj fs => fs.isEmpty

/-- Property read `v[k]` on a JS value: a missing key, or any receiver
that is not an object literal, yields `undefined`. -/
def getProp (v : Json) (k : String) : Json :=
  match v with
  | .obj fs =>
    match fs.find? (fun p => p.1 == k) with
    | some p => p.2
    | none => .undefined
  | _ => .undefined

/-- Lowercase hexadecimal digit, used by the JSON `\u00XX` escapes. -/
def hexDigitLower (n : Nat) : Char :=
  if n < 10 then Char.ofNat (48 + n) else Char.ofNat (87 + n)

/-- Uppercase hexadecimal digit, used by percent-encoding. -/
def hexDigitUpper (n : Nat) : Char :=
  if n < 10 then Char.ofNat (48 + n) else Char.ofNat (55 + n)

/-- JSON string escaping as performed by `JSON.stringify`: quote and
backslash are escaped, the named control escapes are used where they
exist, and remaining control characters become `\u00XX`. -/
def jsonEscapeChar (c : Char) : String :=
  if c = Char.ofNat 34 then "\\\""
  else if c = '\\' then "\\\\"
  else if c = Char.ofNat 8 then "\\b"
  else if c = Char.ofNat 9 then "\\t"
  else if c = Char.ofNat 10 then "\\n"
  else if c = Char.ofNat 12 then "\\f"
  else if c = Char.ofNat 13 then "\\r"
  else if c.toNat < 32 then
    "\\u00" ++ String.singleton (hexDigitLower (c.toNat / 16)) ++
      String.singleton (hexDigitLower (c.toNat % 16))
  else String.singleton c

/-- Quoted JSON string literal for `s`. -/
def jsonQuote (s : String) : String :=
  "\"" ++ String.join (s.toList.map jsonEscapeChar) ++ "\""

mutual

/-- Embedding of `JSON.stringify`.  Returns `none` where JavaScript
returns `undefined` (stringifying `undefined` itself). -/
def jsonStringify : Json → Option String
  | .null => some "null"
  | .undefined => none
  | .bool b => some (cond b "true" "false")
  | .num n => some (toString n)
  | .str s => some (jsonQuote s)
  | .arr xs => some ("[" ++ String.intercalate "," (jsonStringifyElems xs) ++ "]")
  | .obj fs => some ("\x7b" ++ String.intercalate "," (jsonStringifyFields fs) ++ "\x7d")

/-- Array elements under `JSON.stringify`: an element that stringifies to
`undefined` is rendered as `null`. -/
def jsonStringifyElems : List Json → List String
  | [] => []
  | x :: xs =>
    (match jsonStringify x with
     | some s => s
     | none => "null") :: jsonStringifyElems xs

/-- Object fields under `JSON.stringify`: a field whose value stringifies
to `undefined` is dropped. -/
def jsonStringifyFields : List (String × Json) → List String
  | [] => []
  | (k, v) :: fs =>
    (match jsonStringify v with
     | some s => [jsonQuote k ++ ":" ++ s]
     | none => []) ++ jsonStringifyFields fs

end

mutual

/-- JavaScript string conversion `String(v)` (also `v.toString()` for
non-null receivers): arrays join their elements with commas, objects
render as `[object Object]`. -/
def jsDisplay : Json → String
  | .null => "null"
  | .undefined => "undefined"
  | .bool b => cond b "true" "false"
  | .num n => toString n
  | .str s => s
  | .arr xs => String.intercalate "," (jsDisplayList xs)
  | .obj _ => "[object Object]"

/-- Elements of `Array.prototype.join`: null and undefined render empty. -/
def jsDisplayList : List Json → List String
  | [] => []
  | x :: xs =>
    (match x with
     | .null => ""
     | .undefined => ""
     | v => jsDisplay v) :: jsDisplayList xs

end

/-- Method call `v.toString()`: throws a TypeError when the receiver is
null or undefined, otherwise converts as `String(v)`. -/
def jsToStringCall : Json → Except String String
  | .null => .error "TypeError: null has no toString"
  | .undefined => .error "TypeError: undefined has no toString"
  | v => .ok (jsDisplay v)

/-- Characters left unescaped by `encodeURIComponent` and by the node
querystring escaper. -/
def qsUnreserved (c : Char) : Bool :=
  (65 ≤ c.toNat && c.toNat ≤ 90) || (97 ≤ c.toNat && c.toNat ≤ 122) ||
  (48 ≤ c.toNat && c.toNat ≤ 57) ||
  c = '-' || c = '_' || c = '.' || c = '!' || c = '~' || c = '*' ||
  c = '\'' || c = '(' || c = ')'

/-- UTF-8 encoding of one character, as a list of byte values. -/
def utf8EncodeChar (c : Char) : List Nat :=
  let n := c.toNat
  if n < 128 then [n]
  else if n < 2048 then [192 + n / 64, 128 + n % 64]
  else if n < 65536 then [224 + n / 4096, 128 + (n / 64) % 64, 128 + n % 64]
  else [240 + n / 262144, 128 + (n / 4096) % 64, 128 + (n / 64) % 64, 128 + n % 64]

/-- UTF-8 byte sequence of a string. -/
def utf8Bytes (s : String) : List Nat :=
  (s.toList.map utf8EncodeChar).flatten

/-- Percent-encoding of one byte, uppercase hex. -/
def percentByte (b : Nat) : String :=
  "%" ++ String.singleton (hexDigitUpper (b / 16)) ++
    String.singleton (hexDigitUpper (b % 16))

/-- Querystring escaping of a component (the node `querystring.escape`). -/
def qsEscape (s : String) : String :=
  String.join (s.toList.map fun c =>
    if qsUnreserved c then String.singleton c
    else String.join ((utf8EncodeChar c).map percentByte))

/-- Primitive rendering used by `querystring.stringify` for values:
strings pass through, numbers and booleans render, everything else
renders empty. -/
def qsPrimitive : Json → String
  | .str s => s
  | .num n => toString n
  | .bool b => cond b "true" "false"
  | _ => ""

/-- Embedding of `querystring.stringify` on a flat object: ordered
`key=value` pairs joined by ampersands, both sides escaped.  Non-object
inputs stringify to the empty string. -/
def qsStringify (v : Json) : String :=
  match v with
  | .obj fs =>
    String.intercalate "&"
      (fs.map fun p => qsEscape p.1 ++ "=" ++ qsEscape (qsPrimitive p.2))
  | _ => ""

/-- Error kinds produced by the response handler in `executeRequest`,
each carrying what the VError and its `name` assignment record. -/
inductive ErrorKind where
  | transportFailure (cause : String)
  | emptyResponse
  | unparseableHTML (text : String)
  | unparseableBody
  | apiError (name : Json)
  | httpStatus (status : Nat)

/-- Raw outcome of the network call as seen by the callback of
`request(options, ...)`: an optional connection-level error, the HTTP
status code, and the (already JSON-decoded when possible) body, with
`Json.undefined` standing for an absent body. -/
structure TransportOutcome where
  err : Option String
  statusCode : Nat
  body : Json

/-- Embedding of the response callback inside `executeRequest`
(src/itbit.js lines 121-172).  `extractText` stands for the cheerio
text extraction `cheerio.load(body); body text` applied to the raw
body, a library capability outside the repository.  The result pairs
the error passed to the callback (none on success) with the body, which
the callback always receives as its second argument. -/
def handleResponse (extractText : String → String) (o : TransportOutcome) :
    Option ErrorKind × Json :=
  let error : Option ErrorKind :=
    match o.err with
    | some e => some (.transportFailure e)
    | none =>
      if !truthy o.body then some .emptyResponse
      else if !isObject o.body then
        let responseBody := extractText (jsDisplay o.body)
        if responseBody != "" then some (.unparseableHTML responseBody)
        else some .unparseableBody
      else if truthy o.body && truthy (getProp o.body "code") then
        some (.apiError (getProp o.body "code"))
      else if truthy o.body && truthy (getProp o.body "error") then
        some (.apiError (getProp o.body "error"))
      else if !(o.statusCode == 200 || o.statusCode == 201 || o.statusCode == 202) then
        some (.httpStatus o.statusCode)
      else none
  (error, o.body)

/-- Restatement of the classifier as an ordered rule list, following the
wording of the specification (amended to use JS truthiness): each rule
is a guard paired with the error it produces. -/
def classifierRules (extractText : String → String) (o : TransportOutcome) :
    List (Bool × ErrorKind) :=
  [ (o.err.isSome, .transportFailure (o.err.getD "")),
    (!truthy o.body, .emptyResponse),
    (!isObject o.body && extractText (jsDisplay o.body) != "",
      .unparseableHTML (extractText (jsDisplay o.body))),
    (!isObject o.body, .unparseableBody),
    (truthy (getProp o.body "code"), .apiError (getProp o.body "code")),
    (truthy (getProp o.body "error"), .apiError (getProp o.body "error")),
    (!(o.statusCode == 200 || o.statusCode == 201 || o.statusCode == 202),
      .httpStatus o.statusCode) ]

/-- First-match-wins reading of the rule list: the first rule whose
guard holds supplies the error; no match means success. -/
def classifyFirstMatch (extractText : String → String) (o : TransportOutcome) :
    Option ErrorKind :=
  ((classifierRules extractText o).find? (fun r => r.1)).map (fun r => r.2)

/-- A concrete text extraction that always finds nothing, usable as a
fixture where the HTML branch is not exercised. -/
def noText : String → String := fun _ => ""

/-- The base64 alphabet. -/
def base64Chars : String :=
  "ABCDEFGHIJKLMNOPQRSTUVWXYZabcdefghijklmnopqrstuvwxyz0123456789+/"

/-- Digit of the base64 alphabet at index `n`. -/
def base64Digit (n : Nat) : Char :=
  base64Chars.toList.getD n 'A'

/-- Base64 encoding of a byte sequence with `=` padding, as produced by
`digest('base64')`. -/
def base64Encode : List Nat → String
  | [] => ""
  | [a] =>
    String.mk [base64Digit (a / 4), base64Digit (a % 4 * 16)] ++ "=="
  | [a, b] =>
    String.mk [base64Digit (a / 4), base64Digit (a % 4 * 16 + b / 16),
      base64Digit (b % 16 * 4)] ++ "="
  | a :: b :: c :: rest =>
    String.mk [base64Digit (a / 4), base64Digit (a % 4 * 16 + b / 16),
      base64Digit (b % 16 * 4 + c / 64), base64Digit (c % 64)] ++ base64Encode rest

/-- The two node crypto primitives the signer uses, as abstract byte
functions: `sha256` maps a byte sequence to its 32-byte digest, and
`hmacSha512` maps a key and a byte sequence to the 64-byte MAC.  They
are library code outside the repository, so the signer is parametric in
them. -/
structure CryptoPrims where
  sha256 : List Nat → List Nat
  hmacSha512 : (key : List Nat) → (data : List Nat) → List Nat

/-- Embedding of the signing steps of `makePrivateRequest`
(src/itbit.js lines 77-86): sha256 digest of the message, URI bytes
prepended, hmac-sha512 under the secret, base64 output. -/
def makeSignature (prims : CryptoPrims) (secret uri message : String) : String :=
  let hashBuffer := prims.sha256 (utf8Bytes message)
  let bufferToHash := utf8Bytes uri ++ hashBuffer
  base64Encode (prims.hmacSha512 (utf8Bytes secret) bufferToHash)

/-- Client state: credentials, server base URLs, timeout and the one
piece of mutable state, the nonce counter. -/
structure ItBit where
  key : Json
  secret : Json
  serverV1 : String
  serverV2 : String
  timeout : Nat
  nonce : Nat

/-- Constructor settings; optional fields default as in the source. -/
structure Settings where
  key : Json
  secret : Json
  serverV1 : Option String
  serverV2 : Option String
  timeout : Option Nat

/-- Embedding of the `ItBit` constructor: defaults applied, nonce
initialized to the current time in milliseconds. -/
def ItBit.make (settings : Settings) (now : Nat) : ItBit :=
  { key := settings.key
    secret := settings.secret
    serverV1 := settings.serverV1.getD "https://api.itbit.com/v1"
    serverV2 := settings.serverV2.getD "https://www.itbit.com/api/v2"
    timeout := settings.timeout.getD 20000
    nonce := now }

/-- Headers assembled for a private request. -/
structure Headers where
  userAgent : String
  authorization : String
  xAuthTimestamp : Nat
  xAuthNonce : Nat

/-- Options record handed to the `request` library. -/
structure RequestOptions where
  method : String
  uri : String
  headers : Headers
  json : Json
  timeout : Nat

/-- Outcome of `makePrivateRequest` before the network: either the
credentials-missing error (no request dispatched), or a dispatched
request together with the canonical message and post data that were
signed. -/
inductive PrivateOutcome where
  | credsError (message : String)
  | send (opts : RequestOptions) (canonicalMsg : String) (postData : Json)

/-- Post data of a private request (src/itbit.js lines 64-66): compact
JSON of the args for POST and PUT, the empty string otherwise.  A
`Json.undefined` result mirrors `JSON.stringify` returning undefined. -/
def postDataOf (method : String) (args : Json) : Json :=
  if method == "POST" || method == "PUT" then
    match jsonStringify args with
    | some s => .str s
    | none => .undefined
  else .str ""

/-- URI of a private request (src/itbit.js lines 61 and 67-69): base
URL plus path, with a query string appended for GET with non-empty
args. -/
def uriOf (serverV1 path method : String) (args : Json) : String :=
  if method == "GET" && !isEmpty args then
    serverV1 ++ path ++ "?" ++ qsStringify args
  else serverV1 ++ path

/-- Canonical message of a private request (src/itbit.js line 75): the
nonce rendered in decimal, concatenated with the JSON array of method,
uri, post data, nonce as string and timestamp as string. -/
def canonicalMessage (method uri : String) (postData : Json)
    (nonce timestamp : Nat) : String :=
  Nat.repr nonce ++
    ((jsonStringify (.arr [.str method, .str uri, postData,
      .str (Nat.repr nonce), .str (Nat.repr timestamp)])).getD "")

/-- Embedding of `makePrivateRequest` (src/itbit.js lines 54-102) up to
the network call, with the nonce counter passed as explicit state: on
missing credentials the callback receives the error and the state is
unchanged; otherwise the request options are assembled, and the nonce
has advanced by one in the returned state. -/
def makePrivateRequest (prims : CryptoPrims) (self : ItBit) (timestamp : Nat)
    (method path : String) (args : Json) : PrivateOutcome × ItBit :=
  if !truthy self.key || !truthy self.secret then
    (.credsError
      "ItBit.makePrivateRequest() must provide key and secret to make a private API request.",
      self)
  else
    let uri := uriOf self.serverV1 path method args
    let postData := postDataOf method args
    let nonce := self.nonce
    let message := canonicalMessage method uri postData nonce timestamp
    let signature := makeSignature prims (jsDisplay self.secret) uri message
    (.send
      { method := method
        uri := uri
        headers :=
          { userAgent := "itBit node.js client"
            authorization := jsDisplay self.key ++ ":" ++ signature
            xAuthTimestamp := timestamp
            xAuthNonce := nonce }
        json := args
        timeout := self.timeout }
      message postData,
      { self with nonce := self.nonce + 1 })

/-- One private call: its timestamp and request triple. -/
structure CallSpec where
  timestamp : Nat
  method : String
  path : String
  args : Json

/-- Sequential execution of a list of private calls against one client
instance, threading the nonce state. -/
def runCalls (prims : CryptoPrims) (self : ItBit) :
    List CallSpec → List PrivateOutcome × ItBit
  | [] => ([], self)
  | c :: rest =>
    let r := makePrivateRequest prims self c.timestamp c.method c.path c.args
    let rs := runCalls prims r.2 rest
    (r.1 :: rs.1, rs.2)

/-- Nonces actually transmitted: one per dispatched request, read from
the nonce header. -/
def usedNonces (outs : List PrivateOutcome) : List Nat :=
  outs.filterMap fun o =>
    match o with
    | .send opts _ _ => some opts.headers.xAuthNonce
    | _ => none

/-- Embedding of the argument construction of `addOrder` (src/itbit.js
lines 220-235): field order as in the object literal, currency derived
from the instrument, amount and price converted with `toString`, and
the two optional fields appended when truthy.  A TypeError from
`toString` on null or undefined propagates as an exception. -/
def addOrderArgs (side type amount price : Json) (instrument : String)
    (metadata clientOrderIdentifier : Json) : Except String Json := do
  let amountStr ← jsToStringCall amount
  let priceStr ← jsToStringCall price
  let base : List (String × Json) :=
    [("side", side), ("type", type),
     ("currency", .str (instrument.take 3)),
     ("amount", .str amountStr), ("price", .str priceStr),
     ("instrument", .str instrument)]
  let withMeta :=
    if truthy metadata then base ++ [("metadata", metadata)] else base
  let allFields :=
    if truthy clientOrderIdentifier then
      withMeta ++ [("clientOrderIdentifier", clientOrderIdentifier)]
    else withMeta
  return .obj allFields

/-- Embedding of `addOrder` (src/itbit.js lines 209-238): builds the
argument object, then issues a POST to the wallet orders path.  An
exception thrown while building the arguments escapes before any
request is made. -/
def addOrder (prims : CryptoPrims) (self : ItBit) (timestamp : Nat)
    (walletId : String) (side type amount price : Json) (instrument : String)
    (metadata clientOrderIdentifier : Json) :
    Except String (PrivateOutcome × ItBit) := do
  let args ← addOrderArgs side type amount price instrument metadata clientOrderIdentifier
  return makePrivateRequest prims self timestamp "POST"
    ("/wallets/" ++ walletId ++ "/orders") args

/-- Discriminator: is this classification an API error. -/
def isApiError : Option ErrorKind → Bool
  | some (.apiError _) => true
  | _ => false

/-- Discriminator: is this value a JSON object literal (JS object that is
neither an array nor a primitive). -/
def isObjLiteral : Json → Bool
  | .obj _ => true
  | _ => false

/-- Fixture: crypto primitives returning empty digests, sufficient where
a theorem does not depend on the hash values. -/
def constPrims : CryptoPrims :=
  { sha256 := fun _ => [], hmacSha512 := fun _ _ => [] }

/-- Fixture: a client with credentials present and nonce counter 1000. -/
def sampleClient : ItBit :=
  { key := .str "k", secret := .str "s",
    serverV1 := "https://api.itbit.com/v1",
    serverV2 := "https://www.itbit.com/api/v2",
    timeout := 20000, nonce := 1000 }

/-- Fixture: the same client with its key absent. -/
def sampleNoKey : ItBit :=
  { sampleClient with key := .undefined }

/-- Fixture: a private GET call. -/
def sampleCall : CallSpec :=
  { timestamp := 5, method := "GET", path := "/wallets", args := .obj [] }

/-- C1: the canonical message of a private request is the nonce rendered
in decimal, concatenated with the JSON array literal of method, uri,
body, nonce-as-decimal-string and timestamp-as-decimal-string in exactly
that order, the first three as raw strings and the last two as strings;
and the construction is deterministic in its five inputs. -/
theorem canonicalMessage_spec (method uri body : String) (nonce timestamp : Nat) :
    canonicalMessage method uri (.str body) nonce timestamp =
      Nat.repr nonce ++ "[" ++ jsonQuote method ++ "," ++ jsonQuote uri ++ "," ++
        jsonQuote body ++ "," ++ jsonQuote (Nat.repr nonce) ++ "," ++
        jsonQuote (Nat.repr timestamp) ++ "]" ∧
    (∀ m2 u2 b2 n2 t2, m2 = method → u2 = uri → b2 = body → n2 = nonce →
      t2 = timestamp →
      canonicalMessage m2 u2 (.str b2) n2 t2 =
        canonicalMessage method uri (.str body) nonce timestamp) := by
  constructor
  · simp [canonicalMessage, jsonStringify, jsonStringifyElems, String.intercalate,
      String.intercalate.go, String.append_assoc]
  · intro m2 u2 b2 n2 t2 hm hu hb hn ht
    rw [hm, hu, hb, hn, ht]

/-- Witness for C1 at a concrete request. -/
theorem canonicalMessage_spec_witness :
    canonicalMessage "GET" "https://api.itbit.com/v1/wallets" (.str "") 17 42 =
      canonicalMessage "GET" "https://api.itbit.com/v1/wallets" (.str "") 17 42 :=
  (canonicalMessage_spec "GET" "https://api.itbit.com/v1/wallets" "" 17 42).2
    "GET" "https://api.itbit.com/v1/wallets" "" 17 42 rfl rfl rfl rfl rfl

/-- C2: the signature of a private request is the base64 encoding of the
hmac-sha512, keyed by the secret, of the UTF-8 bytes of the URI followed
by the raw sha256 digest of the canonical message; and it is
deterministic in message, uri and secret. -/
theorem makeSignature_spec (prims : CryptoPrims) (secret uri message : String) :
    makeSignature prims secret uri message =
      base64Encode (prims.hmacSha512 (utf8Bytes secret)
        (utf8Bytes uri ++ prims.sha256 (utf8Bytes message))) ∧
    (∀ s2 u2 m2, s2 = secret → u2 = uri → m2 = message →
      makeSignature prims s2 u2 m2 = makeSignature prims secret uri message) := by
  refine ⟨rfl, ?_⟩
  intro s2 u2 m2 hs hu hm
  rw [hs, hu, hm]

/-- Witness for C2 at a concrete signing input. -/
theorem makeSignature_spec_witness :
    makeSignature constPrims "s" "u" "m" = makeSignature constPrims "s" "u" "m" :=
  (makeSignature_spec constPrims "s" "u" "m").2 "s" "u" "m" rfl rfl rfl

/-- C4: with the key or the secret absent, a private request fails with
the credentials-missing error, no request is dispatched, and the client
state, in particular the nonce counter, is unchanged. -/
theorem makePrivateRequest_missing_creds (prims : CryptoPrims) (self : ItBit)
    (timestamp : Nat) (method path : String) (args : Json)
    (h : truthy self.key = false ∨ truthy self.secret = false) :
    makePrivateRequest prims self timestamp method path args =
      (.credsError
        "ItBit.makePrivateRequest() must provide key and secret to make a private API request.",
        self) := by
  rcases h with h | h <;> simp [makePrivateRequest, h]

/-- Witness for C4: a client without a key. -/
theorem makePrivateRequest_missing_creds_witness :
    makePrivateRequest constPrims sampleNoKey 0 "GET" "/wallets" (.obj []) =
      (.credsError
        "ItBit.makePrivateRequest() must provide key and secret to make a private API request.",
        sampleNoKey) :=
  makePrivateRequest_missing_creds constPrims sampleNoKey 0 "GET" "/wallets" (.obj [])
    (Or.inl rfl)

/-- Helper: the error computed by the response handler is exactly the
first matching rule of the ordered rule list. -/
theorem handleResponse_eq_firstMatch (extractText : String → String)
    (o : TransportOutcome) :
    (handleResponse extractText o).1 = classifyFirstMatch extractText o := by
  obtain ⟨err, status, body⟩ := o
  cases err with
  | some e => rfl
  | none =>
    simp only [handleResponse, classifyFirstMatch, classifierRules, List.find?]
    cases h1 : truthy body <;> cases h2 : isObject body <;>
      cases h3 : extractText (jsDisplay body) != "" <;>
      cases h4 : truthy (getProp body "code") <;>
      cases h5 : truthy (getProp body "error") <;>
      cases h6 : (status == 200 || status == 201 || status == 202) <;>
      simp_all

/-- C3 counterexample: a body carrying a `code` field whose value is the
empty string, with status 400, is classified as an HTTP status error,
not as an API error, because the source tests the truthiness of
`body.code`, not the presence of the field. -/
theorem classifier_code_field_cex :
    (handleResponse noText
      { err := none, statusCode := 400, body := .obj [("code", .str "")] }).1 =
      some (.httpStatus 400) ∧
    isApiError (handleResponse noText
      { err := none, statusCode := 400, body := .obj [("code", .str "")] }).1 = false :=
  ⟨rfl, rfl⟩

/-- C3 as amended: the classifier evaluates the fixed rule list in order
with first match winning, where the body-presence and field checks are
JS truthiness tests (a falsy `code` or `error` value does not trigger
the API-error rules); and the ERR001 fixture with status 400 is an API
error carrying code ERR001, not an HTTP status error. -/
theorem classifier_order_spec (extractText : String → String) (o : TransportOutcome) :
    (handleResponse extractText o).1 = classifyFirstMatch extractText o ∧
    (handleResponse extractText
      { err := none, statusCode := 400,
        body := .obj [("code", .str "ERR001"), ("description", .str "Invalid nonce")] }).1 =
      some (.apiError (.str "ERR001")) :=
  ⟨handleResponse_eq_firstMatch extractText o, rfl⟩

/-- C6 counterexample: for a DELETE request the signed body is the empty
string, not the compact JSON encoding of the arguments. -/
theorem postData_delete_cex :
    postDataOf "DELETE" (.obj [("a", .str "b")]) = .str "" ∧
    jsonStringify (.obj [("a", .str "b")]) = some "\x7b\"a\":\"b\"\x7d" ∧
    Json.str "" ≠ Json.str "\x7b\"a\":\"b\"\x7d" := by
  refine ⟨rfl, rfl, ?_⟩
  intro h
  simp only [Json.str.injEq] at h
  exact absurd h (by decide)

/-- C6 as amended: the signed body is the compact JSON encoding of the
arguments for POST and PUT only; it is the empty string for GET and for
DELETE, and for GET with non-empty arguments the query string is
appended to the URI instead. -/
theorem body_per_method_spec (serverV1 path : String)
    (fields : List (String × Json)) (args : Json) (hargs : args = Json.obj fields) :
    (∃ s, jsonStringify args = some s ∧ postDataOf "POST" args = .str s ∧
      postDataOf "PUT" args = .str s) ∧
    postDataOf "GET" args = .str "" ∧
    postDataOf "DELETE" args = .str "" ∧
    (isEmpty args = false →
      uriOf serverV1 path "GET" args = serverV1 ++ path ++ "?" ++ qsStringify args) ∧
    (isEmpty args = true → uriOf serverV1 path "GET" args = serverV1 ++ path) ∧
    uriOf serverV1 path "POST" args = serverV1 ++ path ∧
    uriOf serverV1 path "PUT" args = serverV1 ++ path ∧
    uriOf serverV1 path "DELETE" args = serverV1 ++ path := by
  subst hargs
  refine ⟨⟨_, rfl, rfl, rfl⟩, rfl, rfl, ?_, ?_, rfl, rfl, rfl⟩
  · intro h
    simp [uriOf, h]
  · intro h
    simp [uriOf, h]

/-- Witness for C6 as amended, at a one-field argument object. -/
theorem body_per_method_spec_witness :
    postDataOf "GET" (Json.obj [("a", Json.str "b")]) = .str "" ∧
    postDataOf "DELETE" (Json.obj [("a", Json.str "b")]) = .str "" ∧
    uriOf "S" "/p" "GET" (Json.obj [("a", Json.str "b")]) =
      "S" ++ "/p" ++ "?" ++ qsStringify (Json.obj [("a", Json.str "b")]) := by
  have h := body_per_method_spec "S" "/p" [("a", Json.str "b")]
    (Json.obj [("a", Json.str "b")]) rfl
  exact ⟨h.2.1, h.2.2.1, h.2.2.2.1 rfl⟩

/-- C7 counterexample: a JSON array body with status 200 is accepted as
success and returned to the caller, although it is not an object
literal, because underscore's `isObject` is true for arrays. -/
theorem success_array_body_cex :
    handleResponse noText { err := none, statusCode := 200, body := .arr [.str "x"] } =
      (none, .arr [.str "x"]) ∧
    isObjLiteral (.arr [.str "x"]) = false :=
  ⟨rfl, rfl⟩

/-- C7 as amended: every success delivers a body for which underscore's
`isObject` holds, that is a decoded JSON object or array; strings,
numbers, booleans and absent bodies are never classified as success;
and the successful body is returned to the caller unchanged. -/
theorem success_body_shape (extractText : String → String) (o : TransportOutcome)
    (h : (handleResponse extractText o).1 = none) :
    isObject o.body = true ∧ (handleResponse extractText o).2 = o.body := by
  refine ⟨?_, rfl⟩
  obtain ⟨err, status, body⟩ := o
  cases err with
  | some e => simp [handleResponse] at h
  | none =>
    simp only [handleResponse] at h
    cases h1 : truthy body <;> cases h2 : isObject body <;>
      cases h3 : extractText (jsDisplay body) != "" <;> simp_all

/-- Witness for C7 as amended: an empty object body with status 200. -/
theorem success_body_shape_witness :
    isObject (Json.obj []) = true ∧
    (handleResponse noText { err := none, statusCode := 200, body := .obj [] }).2 =
      Json.obj [] :=
  success_body_shape noText { err := none, statusCode := 200, body := .obj [] } rfl

/-- C8 counterexample: on the API-error failure path the callback
receives the normalized error together with the response body, not the
error alone: the body delivered alongside the error is the decoded
error object itself. -/
theorem error_with_body_cex :
    handleResponse noText
      { err := none, statusCode := 400,
        body := .obj [("code", .str "ERR001"), ("description", .str "Invalid nonce")] } =
      (some (.apiError (.str "ERR001")),
        .obj [("code", .str "ERR001"), ("description", .str "Invalid nonce")]) ∧
    truthy (.obj [("code", .str "ERR001"), ("description", .str "Invalid nonce")]) = true :=
  ⟨rfl, rfl⟩

/-- C8 as amended: on every failure path the caller receives the single
normalized error, determined by the first matching rule, as the error
argument of the callback, and the raw body is passed alongside it as
the second argument regardless of success or failure. -/
theorem callback_delivery (extractText : String → String) (o : TransportOutcome) :
    (handleResponse extractText o).2 = o.body ∧
    (handleResponse extractText o).1 = classifyFirstMatch extractText o :=
  ⟨rfl, handleResponse_eq_firstMatch extractText o⟩

/-- Helper: with credentials present, a run of private calls uses the
consecutive nonces starting at the initial counter, and leaves the
counter advanced by the number of calls. -/
theorem runCalls_aux (prims : CryptoPrims) :
    ∀ (calls : List CallSpec) (s : ItBit),
      truthy s.key = true → truthy s.secret = true →
      usedNonces (runCalls prims s calls).1 = List.range' s.nonce calls.length ∧
      (runCalls prims s calls).2.nonce = s.nonce + calls.length := by
  intro calls
  induction calls with
  | nil => intro s hk hs; exact ⟨rfl, rfl⟩
  | cons c rest ih =>
    intro s hk hs
    have h1 := ih { s with nonce := s.nonce + 1 } hk hs
    simp only [runCalls, makePrivateRequest, hk, hs, Bool.not_true, Bool.or_self,
      Bool.false_eq_true, if_false, usedNonces, List.filterMap, List.length_cons,
      List.range'_succ] at h1 ⊢
    constructor
    · simpa [usedNonces] using h1.1
    · simpa [Nat.add_assoc, Nat.add_comm 1 rest.length] using h1.2

/-- C5: with credentials present, the nonces transmitted by a sequence
of N private calls through one client are exactly the N consecutive
values starting at the initial counter, hence strictly increasing with
no repeats; the counter ends advanced by exactly N, one step per call,
independent of how each response is later classified (response handling
does not touch the counter). -/
theorem runCalls_nonce_spec (prims : CryptoPrims) (self : ItBit)
    (calls : List CallSpec) (hk : truthy self.key = true)
    (hs : truthy self.secret = true) :
    usedNonces (runCalls prims self calls).1 = List.range' self.nonce calls.length ∧
    (runCalls prims self calls).2.nonce = self.nonce + calls.length ∧
    (usedNonces (runCalls prims self calls).1).Pairwise (· < ·) ∧
    (usedNonces (runCalls prims self calls).1).length = calls.length := by
  have h := runCalls_aux prims calls self hk hs
  refine ⟨h.1, h.2, ?_, ?_⟩
  · rw [h.1]
    exact List.pairwise_lt_range' _ _
  · rw [h.1]
    simp

/-- Witness for C5: two GET calls against the sample client. -/
theorem runCalls_nonce_spec_witness :
    usedNonces (runCalls constPrims sampleClient [sampleCall, sampleCall]).1 =
      List.range' sampleClient.nonce 2 ∧
    (runCalls constPrims sampleClient [sampleCall, sampleCall]).2.nonce =
      sampleClient.nonce + 2 ∧
    (usedNonces (runCalls constPrims sampleClient [sampleCall, sampleCall]).1).Pairwise
      (· < ·) ∧
    (usedNonces (runCalls constPrims sampleClient [sampleCall, sampleCall]).1).length = 2 :=
  runCalls_nonce_spec constPrims sampleClient [sampleCall, sampleCall] rfl rfl

/-- C9: calling `addOrder` with the documented null sentinel for the
price of a market order throws a TypeError (from `price.toString()` on
null) instead of reporting a failure through the result channel; the
claim states the intended behavior, the source contradicts its own
comment that price must be set to null when unused. -/
theorem addOrder_null_price_throws :
    addOrder constPrims sampleClient 7 "w1" (.str "buy") (.str "market")
      (.num 1) Json.null "XBTUSD" Json.undefined Json.undefined =
      .error "TypeError: null has no toString" ∧
    jsToStringCall Json.null = .error "TypeError: null has no toString" :=
  ⟨rfl, rfl⟩

/-- C10: the argument object sent by `addOrder` carries currency equal
to the first three characters of the instrument, amount and price as
their string conversions, the optional fields only when truthy, and is
posted to the wallet orders path; in particular instrument XBTUSD
yields currency XBT. -/
theorem addOrder_args_spec (prims : CryptoPrims) (self : ItBit) (ts : Nat)
    (walletId : String) (side type amount price : Json) (instrument : String)
    (metadata clientOrderIdentifier : Json) (a p : String)
    (ha : jsToStringCall amount = .ok a) (hp : jsToStringCall price = .ok p) :
    addOrderArgs side type amount price instrument metadata clientOrderIdentifier =
      .ok (.obj ([("side", side), ("type", type),
        ("currency", .str (instrument.take 3)),
        ("amount", .str a), ("price", .str p),
        ("instrument", .str instrument)] ++
        (if truthy metadata then [("metadata", metadata)] else []) ++
        (if truthy clientOrderIdentifier then
          [("clientOrderIdentifier", clientOrderIdentifier)] else []))) ∧
    addOrder prims self ts walletId side type amount price instrument metadata
        clientOrderIdentifier =
      (addOrderArgs side type amount price instrument metadata
        clientOrderIdentifier).map
        (fun args => makePrivateRequest prims self ts "POST"
          ("/wallets/" ++ walletId ++ "/orders") args) ∧
    "XBTUSD".take 3 = "XBT" := by
  refine ⟨?_, ?_, rfl⟩
  · simp only [addOrderArgs, ha, hp]
    split_ifs <;> rfl
  · simp only [addOrder, addOrderArgs, ha, hp]
    rfl

/-- Witness for C10 at a concrete limit order. -/
theorem addOrder_args_spec_witness :
    addOrderArgs (Json.str "buy") (Json.str "limit") (Json.num 1) (Json.str "100")
        "XBTUSD" Json.undefined Json.undefined =
      .ok (.obj ([("side", Json.str "buy"), ("type", Json.str "limit"),
        ("currency", .str ("XBTUSD".take 3)),
        ("amount", .str "1"), ("price", .str "100"),
        ("instrument", .str "XBTUSD")] ++
        (if truthy Json.undefined then [("metadata", Json.undefined)] else []) ++
        (if truthy Json.undefined then
          [("clientOrderIdentifier", Json.undefined)] else []))) ∧
    addOrder constPrims sampleClient 7 "w9" (Json.str "buy") (Json.str "limit")
        (Json.num 1) (Json.str "100") "XBTUSD" Json.undefined Json.undefined =
      (addOrderArgs (Json.str "buy") (Json.str "limit") (Json.num 1) (Json.str "100")
        "XBTUSD" Json.undefined Json.undefined).map
        (fun args => makePrivateRequest constPrims sampleClient 7 "POST"
          ("/wallets/" ++ "w9" ++ "/orders") args) ∧
    "XBTUSD".take 3 = "XBT" :=
  addOrder_args_spec constPrims sampleClient 7 "w9" (Json.str "buy") (Json.str "limit")
    (Json.num 1) (Json.str "100") "XBTUSD" Json.undefined Json.undefined "1" "100"
    rfl rfl

end ItBitSpec
